import Mathlib

/-!
Shallow embedding of the hackathon-location pipeline
(`src/functions/location_numbers.py` and `src/agents/agent_location.py`).

Python strings are modelled as Lean `String`; the string operations the
code uses (`lower`, `split`, `strip`, substring membership via `in`) are
reimplemented on `List Char` so they mirror CPython semantics for the
ASCII data involved.  Python `float` coordinates are modelled as `Rat`,
with `"{x:.2f}"` formatting made explicit; none of the claims depend on
binary floating-point rounding.  Network calls and exceptions are
modelled by outcome parameters (`GeoOutcome`, `SearchOutcome`,
`Except String Unit`) that the embedded functions branch on exactly
where the Python code branches on status codes and `except` clauses.
-/

namespace HackSearch

set_option maxRecDepth 16384

/-! ### Python-style string primitives -/

/-- Prefix test: the character list `n` is a prefix of `h`. -/
def subAt : List Char → List Char → Bool
  | [], _ => true
  | _ :: _, [] => false
  | a :: as, b :: bs => a = b && subAt as bs

/-- Occurrence test: `n` occurs as a contiguous sublist of `h`
(Python's `n in h` on strings). -/
def hasSub (n : List Char) : List Char → Bool
  | [] => subAt n []
  | c :: rest => subAt n (c :: rest) || hasSub n rest

/-- Python `needle in hay` on strings. -/
def substr (needle hay : String) : Bool :=
  hasSub needle.data hay.data

/-- ASCII lower-casing of one character, as Python `str.lower` acts on
the ASCII range used by this program. -/
def lowerChar (c : Char) : Char :=
  if 'A' ≤ c ∧ c ≤ 'Z' then Char.ofNat (c.toNat + 32) else c

/-- Python `s.lower()` (ASCII fragment). -/
def lowerStr (s : String) : String :=
  ⟨s.data.map lowerChar⟩

/-- Characters before the first occurrence of `sep` (the whole list when
`sep` does not occur). -/
def takeBeforeSub (sep : List Char) : List Char → List Char
  | [] => []
  | c :: rest => if subAt sep (c :: rest) then [] else c :: takeBeforeSub sep rest

/-- Fuel-driven worker for `splitSub`; with a non-empty separator the
fuel `l.length + 1` is never exhausted. -/
def splitSubAux : Nat → List Char → List Char → List (List Char)
  | 0, _, l => [l]
  | Nat.succ fuel, sep, l =>
      if hasSub sep l then
        takeBeforeSub sep l ::
          splitSubAux fuel sep (l.drop ((takeBeforeSub sep l).length + sep.length))
      else [l]

/-- Python `s.split(sep)` for a non-empty separator: in particular
`"".split(sep) = [""]`. -/
def splitSub (sep l : List Char) : List (List Char) :=
  splitSubAux (l.length + 1) sep l

/-- Python `s.split(sep)` on `String`. -/
def pySplit (sep s : String) : List String :=
  (splitSub sep.data s.data).map (fun l => ⟨l⟩)

def isSpaceChar (c : Char) : Bool :=
  c = ' ' || c = '\t' || c = '\n' || c = '\r'

/-- Python `s.strip()` (common whitespace). -/
def pyStrip (s : String) : String :=
  ⟨((s.data.dropWhile isSpaceChar).reverse.dropWhile isSpaceChar).reverse⟩

/-- Python `s.split(sep)[0]`: the segment before the first occurrence of
`sep`. -/
def splitFirst (sep t : String) : String :=
  ⟨takeBeforeSub sep.data t.data⟩

/-- Python `a or b` on optional strings: the first operand unless it is
`None` or empty. -/
def pyOr (a b : Option String) : Option String :=
  match a with
  | some s => if s = "" then b else some s
  | none => b

/-- Python `", ".join`-style joining (`str.join`). -/
def pyJoin (sep : String) : List String → String
  | [] => ""
  | [a] => a
  | a :: b :: rest => a ++ sep ++ pyJoin sep (b :: rest)

/-! ### Data model (`location_numbers.py`) -/

/-- The `HackathonInfo` pydantic model. -/
structure HackathonInfo where
  name : String
  description : String
  location : Option String := none
  date : Option String := none
deriving DecidableEq, Repr

/-- The `LocationParams` pydantic model; `float` modelled as `Rat`. -/
structure LocationParams where
  lat : Rat
  lng : Rat
deriving DecidableEq, Repr

/-- The `LocationResponse` pydantic model. -/
structure LocationResponse where
  hackathons : List HackathonInfo
deriving DecidableEq, Repr

/-- The `address` object of the reverse-geocoding response: the optional
fields `search_hackathons` reads. -/
structure Address where
  city : Option String := none
  town : Option String := none
  village : Option String := none
  state : Option String := none
  country : Option String := none
deriving DecidableEq, Repr

/-- One element of the search provider's `results` array; the four
fields the code reads, each optionally absent. -/
structure RawResult where
  title : Option String := none
  snippet : Option String := none
  raw_content : Option String := none
  published_date : Option String := none
deriving DecidableEq, Repr

/-- Outcome of the reverse-geocoding HTTP call: 200-with-address,
non-200 status, or a raised exception. -/
inductive GeoOutcome where
  | ok (addr : Address)
  | httpError
  | exn
deriving DecidableEq, Repr

/-- Outcome of the Tavily search HTTP call. -/
inductive SearchOutcome where
  | ok (results : List RawResult)
  | httpError
  | exn
deriving DecidableEq, Repr

/-! ### Geo resolution (lines 27–52) -/

/-- Python's `{q:.2f}` fixed-point formatting on `Rat`: round the
absolute value to hundredths (`round (|q| * 100) = ⌊(200|p| + d) / 2d⌋`
for `q = p/d`) and print sign, integer part and two fraction digits. -/
def format2 (q : Rat) : String :=
  let p : Nat := q.num.natAbs
  let d : Nat := q.den
  let cents : Nat := (200 * p + d) / (2 * d)
  let frac := cents % 100
  (if q.num < 0 then "-" else "") ++ toString (cents / 100) ++ "." ++
    (if frac < 10 then "0" ++ toString frac else toString frac)

/-- The chain `address.get('city') or address.get('town') or address.get('village')`. -/
def cityOf (addr : Address) : Option String :=
  pyOr (pyOr addr.city addr.town) addr.village

/-- Line 41, `[p for p in [city, state, country] if p]`: keep the truthy
(present and non-empty) components. -/
def locationParts (addr : Address) : List String :=
  [cityOf addr, addr.state, addr.country].filterMap
    (fun o => o.bind (fun s => if s = "" then none else some s))

/-- Line 43: wrap a component in double quotes. -/
def quoteTerm (p : String) : String := "\"" ++ p ++ "\""

/-- The coordinate fallback label `f"{lat:.2f}, {lng:.2f}"`. -/
def fallbackLabel (lat lng : Rat) : String :=
  format2 lat ++ ", " ++ format2 lng

/-- The `(location_string, search_locations)` pair produced by the
reverse-geocoding block of `search_hackathons` (lines 27–52): on a 200
response the truthy components are joined and individually quoted; on a
non-200 status or an exception both fall back to the coordinate label. -/
def resolveLocation (lat lng : Rat) (g : GeoOutcome) : String × List String :=
  match g with
  | .ok addr => (pyJoin ", " (locationParts addr), (locationParts addr).map quoteTerm)
  | .httpError => (fallbackLabel lat lng, [fallbackLabel lat lng])
  | .exn => (fallbackLabel lat lng, [fallbackLabel lat lng])

/-! ### Query construction (lines 54–62) -/

def queryPrefix : String :=
  "(\"hackathon\" OR \"coding competition\" OR \"tech conference\" OR \"developer event\") AND ("

def querySuffix (currentYear : Nat) : String :=
  ") AND ((\"" ++ toString currentYear ++ "\" OR \"" ++ toString (currentYear + 1) ++
  "\") OR \"upcoming\" OR \"scheduled\") AND (\"registration open\" OR \"register now\" OR \"sign up\") -\"past\" -\"completed\" -\"ended\" -\"archive\""

/-- The `search_query` f-string of lines 56–62: event-type disjunction,
the `OR`-joined `search_locations`, year/recency clause, registration
clause and negative terms. -/
def buildSearchQuery (searchLocations : List String) (currentYear : Nat) : String :=
  queryPrefix ++ pyJoin " OR " searchLocations ++ querySuffix currentYear

/-! ### Result filtering (lines 83–143) -/

/-- Line 84, `set(location_string.lower().split(", "))`, kept as a list: the only
uses are `any`-style membership tests, which ignore multiplicity. -/
def locationTerms (locationString : String) : List String :=
  pySplit ", " (lowerStr locationString)

/-- Line 93, the combined content over the lower-cased,
defaulted fields (lines 88–93). -/
def contentOf (r : RawResult) : String :=
  lowerStr (r.title.getD "") ++ " " ++ lowerStr (r.snippet.getD "") ++ " " ++
    lowerStr (r.raw_content.getD "")

/-- Line 99: `any(term.lower() in content for term in location_terms)`. -/
def locationMatch (terms : List String) (content : String) : Bool :=
  terms.any (fun t => substr (lowerStr t) content)

/-- Line 102: `any(str(year) in content for year in range(current_year, current_year + 2))`. -/
def hasDate (currentYear : Nat) (content : String) : Bool :=
  substr (toString currentYear) content || substr (toString (currentYear + 1)) content

/-- Line 103: `"upcoming" in content or "scheduled" in content`. -/
def isUpcoming (content : String) : Bool :=
  substr "upcoming" content || substr "scheduled" content

def genericPhrases : List String :=
  ["upcoming hackathons", "hackathon list", "events near",
   "find hackathons", "hackathon calendar", "all events"]

/-- Lines 106–109: `not any(generic in title for generic in [...])`,
over the lower-cased title. -/
def isSpecificEvent (title : String) : Bool :=
  ! genericPhrases.any (fun g => substr g title)

def registrationTermList : List String :=
  ["register now", "registration open", "sign up",
   "join now", "participate", "apply now"]

/-- Lines 112–115: `any(term in content for term in [...])`. -/
def hasRegistration (content : String) : Bool :=
  registrationTermList.any (fun t => substr t content)

/-- The acceptance condition of line 117:
`location_match and is_specific_event and (has_date or is_upcoming) and has_registration`. -/
def accepts (terms : List String) (currentYear : Nat) (r : RawResult) : Bool :=
  locationMatch terms (contentOf r) &&
  isSpecificEvent (lowerStr (r.title.getD "")) &&
  (hasDate currentYear (contentOf r) || isUpcoming (contentOf r)) &&
  hasRegistration (contentOf r)

def separators : List String := [":", "|", "-", "–"]

/-- The title-cleanup loop of lines 120–122: for each separator in
order, if it occurs, split on it, keep the first segment and strip. -/
def cleanTitle (t : String) : String :=
  separators.foldl
    (fun acc sep => if substr sep acc then pyStrip (splitFirst sep acc) else acc) t

/-- Line 124, `result["title"] = clean_title`: the accepted result with
its title replaced by the cleaned title (the key is always set). -/
def withCleanTitle (r : RawResult) : RawResult :=
  { r with title := some (cleanTitle (r.title.getD "")) }

/-- The filtering loop plus the `[:10]` cap (lines 83–143): keep the
accepted results in order, with cleaned titles, truncated to 10. -/
def filterResults (terms : List String) (currentYear : Nat)
    (results : List RawResult) : List RawResult :=
  (results.filterMap
    (fun r => if accepts terms currentYear r then some (withCleanTitle r) else none)).take 10

/-! ### `search_hackathons` and `get_location_numbers` -/

/-- The function `search_hackathons` (lines 21–149) as a function of its inputs and
the outcomes of its two network calls.  A missing or empty
`TAVILY_API_KEY` returns `[]` before any call; a failed geocoding call
degrades to the coordinate label; a non-200 or raised search call
returns `[]`. -/
def search_hackathons (apiKey : Option String) (lat lng : Rat)
    (geo : GeoOutcome) (currentYear : Nat) (search : SearchOutcome) : List RawResult :=
  match apiKey with
  | none => []
  | some k =>
      if k = "" then []
      else
        match search with
        | .ok results =>
            filterResults (locationTerms (resolveLocation lat lng geo).1) currentYear results
        | .httpError => []
        | .exn => []

/-- The per-result extraction of lines 159–166. -/
def extractHackathon (lat lng : Rat) (r : RawResult) : HackathonInfo :=
  { name := r.title.getD "Unnamed Hackathon"
  , description := r.snippet.getD "No description available"
  , location := some ("Near " ++ format2 lat ++ ", " ++ format2 lng)
  , date := r.published_date }

/-- The function `get_location_numbers` (lines 151–171): the whole body runs inside
`try`, so any internal exception — modelled by the `internal` parameter
— yields `LocationResponse(hackathons=[])` instead of propagating. -/
def get_location_numbers (params : LocationParams) (apiKey : Option String)
    (geo : GeoOutcome) (currentYear : Nat) (search : SearchOutcome)
    (internal : Except String Unit) : LocationResponse :=
  match internal with
  | .error _ => { hackathons := [] }
  | .ok _ =>
      { hackathons :=
          (search_hackathons apiKey params.lat params.lng geo currentYear search).map
            (extractHackathon params.lat params.lng) }

/-! ### Session state (`agent_location.py`) -/

/-- The `EndEvent` pydantic model, also the shape of the fixed
acknowledgment value returned by the `end` handler. -/
structure EndEvent where
  «end» : Bool
deriving DecidableEq, Repr

/-- The mutable state of one `AgentLocation` instance: the `self.end`
termination flag and the `self.locations` accumulator. -/
structure SessionState where
  «end» : Bool
  locations : List (Rat × Rat × List HackathonInfo)
deriving DecidableEq, Repr

/-- The `__init__` state (lines 16–18). -/
def initialState : SessionState := { «end» := false, locations := [] }

/-- The `end` handler (lines 44–48): set the flag, return the fixed
acknowledgment. -/
def endHandler (s : SessionState) : SessionState × EndEvent :=
  ({ s with «end» := true }, { «end» := true })

/-- An externally triggered event: a `location` event carrying the
pipeline's response for that coordinate, or an `end` event. -/
inductive AgentEvent where
  | locationEv (lat lng : Rat) (hs : List HackathonInfo)
  | endEv
deriving DecidableEq

/-- State transition of one event: `location` appends to the
accumulator (lines 31–35) and leaves the flag alone; `end` runs the
`end` handler. -/
def applyEvent (s : SessionState) (e : AgentEvent) : SessionState :=
  match e with
  | .locationEv lat lng hs => { s with locations := s.locations ++ [(lat, lng, hs)] }
  | .endEv => (endHandler s).1

/-- Folding a sequence of events over the session state. -/
def applyEvents (s : SessionState) (es : List AgentEvent) : SessionState :=
  es.foldl applyEvent s

/-- The run loop (lines 50–53) suspends on `agent.condition(lambda:
self.end)`: it returns exactly when the flag is set. -/
def runReturns (s : SessionState) : Bool := s.«end»

/-! ### Concrete fixtures used by witnesses and counterexamples -/

/-- Distinct lowercase location terms as derived from the location
string `"Springfield, Illinois, USA"`. -/
def springfieldTerms : List String := ["springfield", "illinois", "usa"]

/-- A raw result whose combined content matches exactly one of
`springfieldTerms` while every other acceptance predicate holds. -/
def oneTermResult : RawResult :=
  { title := some "Springfield Hackathon"
  , snippet := some "upcoming event register now" }

/-- A raw result matching two location terms, used to instantiate the
amended location-match threshold. -/
def twoTermResult : RawResult :=
  { title := some "Berlin Hackathon"
  , snippet := some "Berlin, Germany register now upcoming" }

/-- An accepted raw result with no title field at all. -/
def noTitleResult : RawResult :=
  { snippet := some "hackathon in springfield upcoming register now" }

/-- An accepted raw result with a separator-bearing title. -/
def titledResult : RawResult :=
  { title := some "Springfield Hackathon: Fall Edition"
  , snippet := some "register now upcoming in springfield" }

/-- A geocoded address with city, state and country present. -/
def addrSpringfield : Address :=
  { city := some "Springfield", state := some "Illinois", country := some "USA" }

/-- A 200 geocoding response whose address carries none of
city/town/village, state, country. -/
def emptyAddress : Address := {}

/-- How many distinct location terms occur in a content string — the
measurement the spec's strict-mode threshold talks about. -/
def matchingTermCount (terms : List String) (content : String) : Nat :=
  terms.dedup.countP (fun t => substr (lowerStr t) content)

/-! ### Helper lemmas about the string primitives -/

theorem subAt_append (n t : List Char) : subAt n (n ++ t) = true := by
  induction n with
  | nil => rfl
  | cons a as ih => simp [subAt, ih]

theorem hasSub_head {n l : List Char} (h : subAt n l = true) : hasSub n l = true := by
  cases l with
  | nil => simpa [hasSub] using h
  | cons c cs => simp [hasSub, h]

theorem hasSub_tail {n : List Char} (c : Char) {cs : List Char}
    (h : hasSub n cs = true) : hasSub n (c :: cs) = true := by
  simp [hasSub, h]

theorem hasSub_middle (n post : List Char) :
    ∀ pre, hasSub n (pre ++ (n ++ post)) = true
  | [] => hasSub_head (subAt_append n post)
  | c :: pre => hasSub_tail c (hasSub_middle n post pre)

theorem hasSub_nil (l : List Char) : hasSub [] l = true := by
  cases l <;> simp [hasSub, subAt]

theorem string_data_append (a b : String) : (a ++ b).data = a.data ++ b.data := rfl

theorem substr_middle {s hay : String} (u v : List Char)
    (h : hay.data = u ++ (s.data ++ v)) : substr s hay = true := by
  unfold substr
  rw [h]
  exact hasSub_middle s.data v u

theorem substr_empty_left (hay : String) : substr "" hay = true := by
  unfold substr
  exact hasSub_nil hay.data

theorem pyJoin_mem (sep : String) : ∀ (l : List String) (x : String), x ∈ l →
    ∃ u v, (pyJoin sep l).data = u ++ (x.data ++ v)
  | [], x, hx => absurd hx (List.not_mem_nil x)
  | [a], x, hx => by
      rcases List.mem_singleton.mp hx with rfl
      exact ⟨[], [], by simp [pyJoin]⟩
  | a :: b :: rest, x, hx => by
      rcases List.mem_cons.mp hx with rfl | hmem
      · refine ⟨[], (sep ++ pyJoin sep (b :: rest)).data, ?_⟩
        simp [pyJoin, string_data_append, List.append_assoc]
      · obtain ⟨u, v, huv⟩ := pyJoin_mem sep (b :: rest) x hmem
        refine ⟨(a ++ sep).data ++ u, v, ?_⟩
        simp [pyJoin, string_data_append, huv, List.append_assoc]

/-- Any member of `searchLocations` occurs verbatim in the built query. -/
theorem query_embeds_member {p : String} (sl : List String) (year : Nat)
    (hp : p ∈ sl) : substr p (buildSearchQuery sl year) = true := by
  obtain ⟨u, v, huv⟩ := pyJoin_mem " OR " sl p hp
  apply substr_middle (queryPrefix.data ++ u) (v ++ (querySuffix year).data)
  simp [buildSearchQuery, string_data_append, huv, List.append_assoc]

/-! ### Helper lemmas about the session state -/

theorem applyEvent_end_mono (s : SessionState) (e : AgentEvent)
    (h : s.«end» = true) : (applyEvent s e).«end» = true := by
  cases e with
  | locationEv lat lng hs => simpa [applyEvent] using h
  | endEv => simp [applyEvent, endHandler]

theorem applyEvents_end_mono (es : List AgentEvent) : ∀ s : SessionState,
    s.«end» = true → (applyEvents s es).«end» = true := by
  induction es with
  | nil => intro s h; simpa [applyEvents] using h
  | cons e es ih =>
      intro s h
      simpa [applyEvents] using ih _ (applyEvent_end_mono s e h)

/-! ### Claim theorems -/

/-- Claim C1: for every coordinate the pipeline returns a list and never
raises on a collaborator failure — a missing API key, a non-200 search
status and a search exception each yield the empty hackathon list, and a
geocoding failure merely degrades the place label while the pipeline
still returns the filtered list. -/
theorem search_failures_degrade_to_empty (p : LocationParams) (geo : GeoOutcome)
    (year : Nat) (s : SearchOutcome) (k : String) (res : List RawResult)
    (hk : k ≠ "") :
    get_location_numbers p none geo year s (Except.ok ()) = ⟨[]⟩ ∧
    get_location_numbers p (some k) geo year SearchOutcome.httpError (Except.ok ()) = ⟨[]⟩ ∧
    get_location_numbers p (some k) geo year SearchOutcome.exn (Except.ok ()) = ⟨[]⟩ ∧
    get_location_numbers p (some k) GeoOutcome.exn year (SearchOutcome.ok res) (Except.ok ()) =
      ⟨(filterResults (locationTerms (fallbackLabel p.lat p.lng)) year res).map
          (extractHackathon p.lat p.lng)⟩ := by
  refine ⟨rfl, ?_, ?_, ?_⟩ <;>
    simp [get_location_numbers, search_hackathons, hk, resolveLocation]

theorem search_failures_degrade_to_empty_witness :
    get_location_numbers ⟨0, 0⟩ none GeoOutcome.httpError 2025 SearchOutcome.exn
        (Except.ok ()) = ⟨[]⟩ ∧
    get_location_numbers ⟨0, 0⟩ (some "key") GeoOutcome.httpError 2025
        SearchOutcome.httpError (Except.ok ()) = ⟨[]⟩ ∧
    get_location_numbers ⟨0, 0⟩ (some "key") GeoOutcome.httpError 2025
        SearchOutcome.exn (Except.ok ()) = ⟨[]⟩ ∧
    get_location_numbers ⟨0, 0⟩ (some "key") GeoOutcome.exn 2025
        (SearchOutcome.ok []) (Except.ok ()) =
      ⟨(filterResults (locationTerms (fallbackLabel (0 : Rat) (0 : Rat))) 2025 []).map
          (extractHackathon (0 : Rat) (0 : Rat))⟩ :=
  search_failures_degrade_to_empty ⟨0, 0⟩ GeoOutcome.httpError 2025
    SearchOutcome.exn "key" [] (by decide)

/-- Claim C2, counterexample: a raw result whose combined content
contains exactly one distinct location term, with every other
acceptance predicate true, is accepted by the filter — the code's
`any(...)` requires one matching term, not two. -/
theorem one_location_term_accepted_counterexample :
    matchingTermCount springfieldTerms (contentOf oneTermResult) = 1 ∧
    isSpecificEvent (lowerStr (oneTermResult.title.getD "")) = true ∧
    (hasDate 2025 (contentOf oneTermResult) || isUpcoming (contentOf oneTermResult)) = true ∧
    hasRegistration (contentOf oneTermResult) = true ∧
    accepts springfieldTerms 2025 oneTermResult = true := by
  decide

/-- Claim C2, amended: with the specificity, date/recency and
registration predicates held true, the filter accepts a raw result
exactly when at least one distinct location term occurs in its combined
content (so one matching term is accepted and zero are rejected). -/
theorem location_match_needs_one_term (terms : List String) (year : Nat)
    (r : RawResult)
    (hspec : isSpecificEvent (lowerStr (r.title.getD "")) = true)
    (hdate : (hasDate year (contentOf r) || isUpcoming (contentOf r)) = true)
    (hreg : hasRegistration (contentOf r) = true) :
    accepts terms year r = true ↔ 1 ≤ matchingTermCount terms (contentOf r) := by
  unfold accepts matchingTermCount locationMatch
  rw [hspec, hdate, hreg]
  simp only [Bool.and_true]
  constructor
  · intro h
    obtain ⟨t, ht, hsub⟩ := List.any_eq_true.mp h
    exact List.countP_pos_iff.mpr ⟨t, List.mem_dedup.mpr ht, hsub⟩
  · intro h
    obtain ⟨t, ht, hsub⟩ := List.countP_pos_iff.mp h
    exact List.any_eq_true.mpr ⟨t, List.mem_dedup.mp ht, hsub⟩

theorem location_match_needs_one_term_witness :
    isSpecificEvent (lowerStr (twoTermResult.title.getD "")) = true ∧
    (hasDate 2025 (contentOf twoTermResult) || isUpcoming (contentOf twoTermResult)) = true ∧
    hasRegistration (contentOf twoTermResult) = true ∧
    (accepts ["berlin", "germany"] 2025 twoTermResult = true ↔
      1 ≤ matchingTermCount ["berlin", "germany"] (contentOf twoTermResult)) :=
  ⟨by decide, by decide, by decide,
    location_match_needs_one_term ["berlin", "germany"] 2025 twoTermResult
      (by decide) (by decide) (by decide)⟩

/-- Claim C3, counterexample: the cleanup keeps the FIRST segment, so
`"TechCrunch: Disrupt Hackathon 2024"` cleans to `"TechCrunch"`, not to
the claimed `"Disrupt Hackathon 2024"`. -/
theorem title_cleanup_counterexample :
    cleanTitle "TechCrunch: Disrupt Hackathon 2024" = "TechCrunch" ∧
    cleanTitle "TechCrunch: Disrupt Hackathon 2024" ≠ "Disrupt Hackathon 2024" := by
  decide

/-- Claim C3, amended: cleanup splits on the separators and keeps only
the first trimmed segment; the spec's worked example therefore yields
`"TechCrunch"`, a title with several separators keeps the segment
before the earliest one, and a separator-free title is unchanged. -/
theorem title_cleanup_first_segment :
    cleanTitle "TechCrunch: Disrupt Hackathon 2024" = "TechCrunch" ∧
    cleanTitle "AngelHack | Global Series - Berlin" = "AngelHack" ∧
    cleanTitle "Disrupt Hackathon 2024" = "Disrupt Hackathon 2024" := by
  decide

/-- Claim C4, counterexample: on the coordinate-string fallback path the
label is put into `search_locations` without quotes, so the query
contains the bare label but not the quoted exact-match form the claim
requires. -/
theorem query_fallback_unquoted_counterexample :
    (resolveLocation 0 0 GeoOutcome.httpError).2 = ["0.00, 0.00"] ∧
    substr (quoteTerm "0.00, 0.00")
      (buildSearchQuery (resolveLocation 0 0 GeoOutcome.httpError).2 2025) = false ∧
    substr "0.00, 0.00"
      (buildSearchQuery (resolveLocation 0 0 GeoOutcome.httpError).2 2025) = true := by
  refine ⟨by decide, by decide, by decide⟩

/-- Claim C4, amended: every non-empty geocoded place component is
embedded in the query as a quoted exact-match term, while the
coordinate fallback label is embedded verbatim but unquoted. -/
theorem query_embeds_components (addr : Address) (lat lng : Rat) (year : Nat)
    (p : String) (hp : p ∈ locationParts addr) :
    substr (quoteTerm p)
      (buildSearchQuery (resolveLocation lat lng (GeoOutcome.ok addr)).2 year) = true ∧
    substr (fallbackLabel lat lng)
      (buildSearchQuery (resolveLocation lat lng GeoOutcome.httpError).2 year) = true ∧
    substr (fallbackLabel lat lng)
      (buildSearchQuery (resolveLocation lat lng GeoOutcome.exn).2 year) = true := by
  refine ⟨?_, ?_, ?_⟩
  · exact query_embeds_member _ year (List.mem_map_of_mem quoteTerm hp)
  · exact query_embeds_member _ year (List.mem_singleton.mpr rfl)
  · exact query_embeds_member _ year (List.mem_singleton.mpr rfl)

theorem query_embeds_components_witness :
    "Springfield" ∈ locationParts addrSpringfield ∧
    (substr (quoteTerm "Springfield")
        (buildSearchQuery (resolveLocation 0 0 (GeoOutcome.ok addrSpringfield)).2 2025) = true ∧
      substr (fallbackLabel 0 0)
        (buildSearchQuery (resolveLocation 0 0 GeoOutcome.httpError).2 2025) = true ∧
      substr (fallbackLabel 0 0)
        (buildSearchQuery (resolveLocation 0 0 GeoOutcome.exn).2 2025) = true) :=
  ⟨by decide, query_embeds_components addrSpringfield 0 0 2025 "Springfield" (by decide)⟩

/-- Claim C5: a raw result titled exactly "Upcoming Hackathons Near You"
is rejected whatever its snippet and raw content, because the
lower-cased title contains the generic phrase "upcoming hackathons". -/
theorem generic_title_rejected (terms : List String) (year : Nat)
    (sn rc pd : Option String) :
    accepts terms year
      { title := some "Upcoming Hackathons Near You"
      , snippet := sn, raw_content := rc, published_date := pd } = false := by
  have h : isSpecificEvent (lowerStr "Upcoming Hackathons Near You") = false := by
    decide
  simp [accepts, h]

/-- Claim C6: the `end` handler sets the termination flag, is idempotent
on the state, returns the fixed acknowledgment, no later event clears
the flag, and the run loop's condition holds after the first `end`
whatever events follow. -/
theorem end_flag_monotone_idempotent (s : SessionState) (e : AgentEvent)
    (es : List AgentEvent) :
    (endHandler s).1.«end» = true ∧
    endHandler (endHandler s).1 = endHandler s ∧
    (endHandler s).2 = { «end» := true } ∧
    (applyEvent { s with «end» := true } e).«end» = true ∧
    runReturns (applyEvents (applyEvent s AgentEvent.endEv) es) = true := by
  refine ⟨rfl, rfl, rfl, applyEvent_end_mono _ e rfl, ?_⟩
  exact applyEvents_end_mono es _ rfl

/-- Claim C7, counterexample: an accepted raw result with no title field
is extracted with name `""` — the filter always writes the (cleaned,
possibly empty) title back into the result, so the "Unnamed Hackathon"
placeholder is never reached for accepted results. -/
theorem extract_missing_title_counterexample :
    noTitleResult.title = none ∧
    accepts ["springfield"] 2025 noTitleResult = true ∧
    (extractHackathon 0 0 (withCleanTitle noTitleResult)).name = "" ∧
    (extractHackathon 0 0 (withCleanTitle noTitleResult)).name ≠ "Unnamed Hackathon" := by
  decide

/-- Claim C7, amended: every accepted result extracts to a record whose
name is the cleaned title (the empty string when the provider title was
absent — never the placeholder), whose description is the snippet or
its placeholder, whose location is the coordinate-derived
`"Near lat, lng"` string, and whose date is the published-date field
passed through unchanged. -/
theorem extract_record_fields (lat lng : Rat) (terms : List String) (year : Nat)
    (r : RawResult) (_hacc : accepts terms year r = true) :
    extractHackathon lat lng (withCleanTitle r) =
      { name := cleanTitle (r.title.getD "")
      , description := r.snippet.getD "No description available"
      , location := some ("Near " ++ format2 lat ++ ", " ++ format2 lng)
      , date := r.published_date } := by
  simp [extractHackathon, withCleanTitle]

theorem extract_record_fields_witness :
    accepts ["springfield"] 2025 titledResult = true ∧
    extractHackathon 1 2 (withCleanTitle titledResult) =
      { name := cleanTitle (titledResult.title.getD "")
      , description := titledResult.snippet.getD "No description available"
      , location := some ("Near " ++ format2 1 ++ ", " ++ format2 2)
      , date := titledResult.published_date } :=
  ⟨by decide, extract_record_fields 1 2 ["springfield"] 2025 titledResult (by decide)⟩

/-- Claim C8: query construction is deterministic — two invocations
given equal resolved place descriptions and the same year produce equal
query strings. -/
theorem query_builder_deterministic (lat₁ lng₁ lat₂ lng₂ : Rat)
    (g₁ g₂ : GeoOutcome) (y₁ y₂ : Nat)
    (hplace : resolveLocation lat₁ lng₁ g₁ = resolveLocation lat₂ lng₂ g₂)
    (hy : y₁ = y₂) :
    buildSearchQuery (resolveLocation lat₁ lng₁ g₁).2 y₁ =
      buildSearchQuery (resolveLocation lat₂ lng₂ g₂).2 y₂ := by
  rw [hplace, hy]

theorem query_builder_deterministic_witness :
    buildSearchQuery (resolveLocation 1 2 (GeoOutcome.ok addrSpringfield)).2 2025 =
      buildSearchQuery (resolveLocation 1 2 (GeoOutcome.ok addrSpringfield)).2 2025 :=
  query_builder_deterministic 1 2 1 2 (GeoOutcome.ok addrSpringfield)
    (GeoOutcome.ok addrSpringfield) 2025 2025 rfl rfl

/-- Claim C9: a 200 geocoding response with none of city/town/village,
state, country yields the empty location string, the singleton-empty
term set, a location-match predicate that holds for every raw result
(the empty string is a substring of anything), and an empty location
disjunction in the query. -/
theorem empty_address_location_filter_vacuous (lat lng : Rat) (r : RawResult) :
    (resolveLocation lat lng (GeoOutcome.ok emptyAddress)).1 = "" ∧
    (resolveLocation lat lng (GeoOutcome.ok emptyAddress)).2 = [] ∧
    locationTerms (resolveLocation lat lng (GeoOutcome.ok emptyAddress)).1 = [""] ∧
    locationMatch (locationTerms (resolveLocation lat lng (GeoOutcome.ok emptyAddress)).1)
      (contentOf r) = true ∧
    pyJoin " OR " (resolveLocation lat lng (GeoOutcome.ok emptyAddress)).2 = "" := by
  refine ⟨rfl, rfl, rfl, ?_, rfl⟩
  show locationMatch [""] (contentOf r) = true
  have hempty : lowerStr "" = "" := rfl
  simp [locationMatch, hempty, substr_empty_left]

/-- Claim C10: `get_location_numbers` catches every exception that
occurs inside its body — not only collaborator failures — and returns
the empty-list response instead of raising past its boundary. -/
theorem pipeline_catches_internal_exceptions (p : LocationParams)
    (apiKey : Option String) (geo : GeoOutcome) (year : Nat)
    (s : SearchOutcome) (e : String) :
    get_location_numbers p apiKey geo year s (Except.error e) = ⟨[]⟩ := rfl

end HackSearch
